import Mathlib

/-!
Verification development for the `Codebot` repository (`src/main.py`), a
Discord bot that accepts untrusted code submissions, scores them with a
static risk heuristic, resolves the submitted language against a Judge0
catalog, executes the code on Judge0, stores submissions and votes in
SQLite, and posts outcomes to a review channel.

The shallow embedding below translates the pure decision logic of
`src/main.py` into Lean.  External effects (HTTP, Discord, SQLite) are
modelled explicitly: HTTP outcomes are inputs to the functions that in the
Python code perform the calls, the SQLite tables are lists, and Discord
side effects are recorded as an event trace.  Unicode-sensitive Python
string primitives (`str.lower`, `str.strip`, `str.isdigit`, `splitlines`)
are modelled for the ASCII range, which is what every pattern and every
comparison in the source uses.
-/

set_option autoImplicit false

namespace Codebot

/-! ### String helpers

Executable counterparts of the Python string primitives used by the bot.
They are written over `List Char` so that every definition reduces in the
kernel. -/

/-- Python `str.lower` (ASCII model). -/
def lowerStr (s : String) : String := String.mk (s.data.map Char.toLower)

/-- Python `str.strip` (ASCII-whitespace model). -/
def trimStr (s : String) : String :=
  String.mk (((s.data.dropWhile Char.isWhitespace).reverse.dropWhile Char.isWhitespace).reverse)

/-- Python slicing `s[:n]`. -/
def strTake (s : String) (n : Nat) : String := String.mk (s.data.take n)

/-- Python `sep.join(parts)`. -/
def joinSep (sep : String) : List String → String
  | [] => ""
  | [x] => x
  | x :: xs => x ++ sep ++ joinSep sep xs

/-- Helper for `splitlines`: split a character list at newline characters,
keeping a (possibly empty) trailing segment. -/
def splitNlChars : List Char → List (List Char)
  | [] => [[]]
  | c :: cs =>
    match splitNlChars cs with
    | [] => [[c]]
    | h :: t => if c = '\n' then [] :: h :: t else (c :: h) :: t

/-- Python `str.splitlines` restricted to `\n` separators (the only line
separator produced by Discord text input): no trailing empty line for a
trailing newline, and `[]` for the empty string. -/
def splitlines (s : String) : List String :=
  match s.data with
  | [] => []
  | _ =>
    let parts := (splitNlChars s.data).map String.mk
    match s.data.getLast? with
    | some c => if c = '\n' then parts.dropLast else parts
    | none => parts

/-- Python `needle in hay` on strings: contiguous substring test. -/
def charsContains (needle : List Char) : List Char → Bool
  | [] => needle.isPrefixOf ([] : List Char)
  | c :: cs => needle.isPrefixOf (c :: cs) || charsContains needle cs

/-- Python `needle in hay` for strings. -/
def strContains (hay needle : String) : Bool := charsContains needle.data hay.data

/-- Python `str.isdigit` (ASCII model): nonempty and all decimal digits. -/
def isDigitStr (s : String) : Bool := !s.data.isEmpty && s.data.all Char.isDigit

/-- Python `int(s)` for a string of decimal digits. -/
def strToNat (s : String) : Nat := s.data.foldl (fun a c => a * 10 + (c.toNat - 48)) 0

/-- Decimal digit to character. -/
def digitChar (n : Nat) : Char := Char.ofNat (48 + n)

/-- Fuel-driven decimal rendering of a natural number. -/
def natToStrAux : Nat → Nat → List Char
  | 0, _ => []
  | fuel + 1, n => if n < 10 then [digitChar n] else natToStrAux fuel (n / 10) ++ [digitChar (n % 10)]

/-- Python `str(n)` for a natural number. -/
def natToStr (n : Nat) : String := String.mk (natToStrAux (n + 1) n)

/-! ### A small regular-expression engine

`src/main.py` drives its static heuristics with `re.search`.  The engine
below implements the exact fragment of Python `re` syntax used by the
source patterns: literal characters, character classes, concatenation,
alternation, `*`/`+`, bounded/unbounded repetition, and a leading `\b`
word boundary.  Matching is by Brzozowski derivatives; `re.search`
semantics (match anywhere) is `reSearch`/`searchWB` below.
`re.IGNORECASE` is modelled by lowercasing the subject and writing the
pattern's literals in lowercase. -/

inductive RE where
  | emp : RE
  | eps : RE
  | cls (p : Char → Bool) : RE
  | cat (a b : RE) : RE
  | alt (a b : RE) : RE
  | star (a : RE) : RE

/-- Does the regex accept the empty string? -/
def RE.nullable : RE → Bool
  | .emp => false
  | .eps => true
  | .cls _ => false
  | .cat a b => a.nullable && b.nullable
  | .alt a b => a.nullable || b.nullable
  | .star _ => true

/-- Smart concatenation. -/
def RE.catS (a b : RE) : RE :=
  match a, b with
  | .emp, _ => .emp
  | _, .emp => .emp
  | .eps, b => b
  | a, .eps => a
  | a, b => .cat a b

/-- Smart alternation. -/
def RE.altS (a b : RE) : RE :=
  match a, b with
  | .emp, b => b
  | a, .emp => a
  | a, b => .alt a b

/-- Brzozowski derivative with respect to one character. -/
def RE.deriv (r : RE) (c : Char) : RE :=
  match r with
  | .emp => .emp
  | .eps => .emp
  | .cls p => if p c then .eps else .emp
  | .cat a b => RE.altS (RE.catS (a.deriv c) b) (if a.nullable then b.deriv c else .emp)
  | .alt a b => RE.altS (a.deriv c) (b.deriv c)
  | .star a => RE.catS (a.deriv c) (.star a)

/-- Does the regex match some prefix of the character list? -/
def matchPre (r : RE) : List Char → Bool
  | [] => r.nullable
  | c :: cs => r.nullable || matchPre (r.deriv c) cs

/-- Python `re.search`: the regex matches at some position of the subject. -/
def reSearch (r : RE) : List Char → Bool
  | [] => r.nullable
  | c :: cs => matchPre r (c :: cs) || reSearch r cs

/-- A position is a left word boundary when the previous character (if any)
is not a word character.  All `\b`-prefixed source patterns start with a
word character, so this captures Python's `\b` there. -/
def isWordChar (c : Char) : Bool := c.isAlphanum || c = '_'

/-- Left word-boundary test given the previous character. -/
def atLeftBoundary : Option Char → Bool
  | none => true
  | some c => !isWordChar c

/-- Python `re.search` for a pattern beginning with `\b`: the match must
start at a left word boundary. -/
def searchWB (r : RE) (prev : Option Char) : List Char → Bool
  | [] => atLeftBoundary prev && r.nullable
  | c :: cs => (atLeftBoundary prev && matchPre r (c :: cs)) || searchWB r (some c) cs

/-- Regex for a literal string. -/
def reStr (s : String) : RE :=
  s.data.foldr (fun c r => RE.cat (RE.cls (fun x => x = c)) r) RE.eps

/-- Regex for one literal character. -/
def reChr (c : Char) : RE := RE.cls (fun x => x = c)

/-- Regex `r?`. -/
def reOpt (r : RE) : RE := RE.alt r RE.eps

/-- Regex `r+`. -/
def rePlus (r : RE) : RE := RE.cat r (RE.star r)

/-- Regex `r{n,}`. -/
def reRepAtLeast (n : Nat) (r : RE) : RE :=
  (List.replicate n r).foldr RE.cat (RE.star r)

/-- Character class `\s`. -/
def wsCls : RE := RE.cls Char.isWhitespace

/-- Character class `[A-Za-z0-9+/]` of the base64 heuristic. -/
def b64Cls : RE := RE.cls (fun c => c.isAlpha || c.isDigit || c = '+' || c = '/')

/-! ### `static_risk_check` (src/main.py lines 158-178) -/

/-- One entry of `SUSPICIOUS_PATTERNS` together with its compiled form.
`srcText` is the pattern exactly as written in the source (used in the
reason strings); `re` is its translation, with literals lowercased when
the search is case-insensitive. -/
structure Pattern where
  srcText : String
  re : RE
  wordBoundary : Bool
  ignoreCase : Bool

/-- `re.search(pat, code)`/`re.search(pat, code, re.IGNORECASE)` for one
pattern. -/
def Pattern.search (p : Pattern) (code : String) : Bool :=
  let cs := if p.ignoreCase then code.data.map Char.toLower else code.data
  if p.wordBoundary then searchWB p.re none cs else reSearch p.re cs

/-- `SUSPICIOUS_PATTERNS` (src/main.py lines 158-162); each is searched
with `re.IGNORECASE` in `static_risk_check`. -/
def SUSPICIOUS_PATTERNS : List Pattern :=
  [ ⟨"\\beval\\(", reStr "eval(", true, true⟩,
    ⟨"\\bexec\\(", reStr "exec(", true, true⟩,
    ⟨"import\\s+os", RE.cat (reStr "import") (RE.cat (rePlus wsCls) (reStr "os")), false, true⟩,
    ⟨"subprocess\\.", reStr "subprocess.", false, true⟩,
    ⟨"socket\\.", reStr "socket.", false, true⟩,
    ⟨"requests\\.", reStr "requests.", false, true⟩,
    ⟨"open\\([^)]*['\\\"]/etc",
      RE.cat (reStr "open(")
        (RE.cat (RE.star (RE.cls (fun c => !(c = ')'))))
          (RE.cat (RE.cls (fun c => c = '\'' || c = '"')) (reStr "/etc"))), false, true⟩,
    ⟨"rm\\s+-rf", RE.cat (reStr "rm") (RE.cat (rePlus wsCls) (reStr "-rf")), false, true⟩,
    ⟨"os\\.remove", reStr "os.remove", false, true⟩,
    ⟨"shutil\\.rmtree", reStr "shutil.rmtree", false, true⟩,
    ⟨"popen\\(", reStr "popen(", false, true⟩,
    ⟨"base64\\.b64decode", reStr "base64.b64decode", false, true⟩,
    ⟨"urllib\\.request", reStr "urllib.request", false, true⟩,
    ⟨"paramiko", reStr "paramiko", false, true⟩,
    ⟨"ctypes\\.", reStr "ctypes.", false, true⟩,
    ⟨"System\\.Diagnostics", reStr "system.diagnostics", false, true⟩ ]

/-- `re.search(r"[A-Za-z0-9+/]{50,}={0,2}", code)` (case-sensitive). -/
def base64BlobPat : Pattern :=
  ⟨"[A-Za-z0-9+/]{50,}={0,2}",
    RE.cat (reRepAtLeast 50 b64Cls) (RE.cat (reOpt (reChr '=')) (reOpt (reChr '='))),
    false, false⟩

/-- `re.search(r"\b(open|os\.open|Path\()", code)` (case-sensitive). -/
def fileOpenPat : Pattern :=
  ⟨"\\b(open|os\\.open|Path\\(",
    RE.alt (reStr "open") (RE.alt (reStr "os.open") (reStr "Path(")),
    true, false⟩

/-- `re.search(r"read|write|w\+|rb", code, re.IGNORECASE)`. -/
def fileRwPat : Pattern :=
  ⟨"read|write|w\\+|rb",
    RE.alt (reStr "read") (RE.alt (reStr "write") (RE.alt (reStr "w+") (reStr "rb"))),
    false, true⟩

/-- `static_risk_check` (src/main.py lines 164-178): every matching
suspicious pattern adds 30 points and a reason, a long base64-like blob
adds 20, co-occurring file-open and read/write tokens add 10, and the
score is capped at 100. -/
def static_risk_check (code : String) : Nat × List String :=
  let a :=
    SUSPICIOUS_PATTERNS.foldl
      (fun (acc : Nat × List String) pat =>
        if pat.search code then
          (acc.1 + 30, acc.2 ++ ["Matched suspicious pattern: `" ++ pat.srcText ++ "`"])
        else acc)
      (0, [])
  let a :=
    if base64BlobPat.search code then
      (a.1 + 20, a.2 ++ ["Detected long base64-like blob (possible obfuscation)."])
    else a
  let a :=
    if fileOpenPat.search code && fileRwPat.search code then
      (a.1 + 10, a.2 ++ ["Contains file read/write patterns."])
    else a
  (min 100 a.1, a.2)

/-! ### Votes (src/main.py lines 83-90, 142-155)

The `votes` table has `PRIMARY KEY (submission_id, user_id)` and `set_vote`
uses `INSERT OR REPLACE`, so writes are last-write-wins per
(submission, voter) pair.  The table is modelled as a list of rows; SQL
row order is irrelevant because `get_votes` only aggregates. -/

/-- One row of the `votes` table: `(submission_id, user_id, vote)`. -/
abbrev VoteRow := Nat × Nat × Int

/-- `set_vote` (src/main.py lines 142-147): `INSERT OR REPLACE` under the
`(submission_id, user_id)` primary key. -/
def set_vote (db : List VoteRow) (submission_id user_id : Nat) (vote : Int) : List VoteRow :=
  (submission_id, user_id, vote) :: db.filter (fun r => !(r.1 == submission_id && r.2.1 == user_id))

/-- `get_votes` (src/main.py lines 149-155): `SELECT SUM(vote), COUNT(*)`
for one submission; a NULL sum (no rows) reads as 0. -/
def get_votes (db : List VoteRow) (submission_id : Nat) : Int × Nat :=
  let rows := db.filter (fun r => r.1 == submission_id)
  ((rows.map (fun r => r.2.2)).sum, rows.length)

/-- Cast a sequence of `(voter, direction)` votes on submission `s`,
left to right, via `set_vote`. -/
def applyVotes (db : List VoteRow) (s : Nat) (votes : List (Nat × Int)) : List VoteRow :=
  votes.foldl (fun d uv => set_vote d s uv.1 uv.2) db

/-- Last-write-wins upsert on a `(voter, direction)` association list;
`set_vote` restricted to one submission's rows. -/
def upsert (acc : List (Nat × Int)) (u : Nat) (d : Int) : List (Nat × Int) :=
  (u, d) :: acc.filter (fun p => !(p.1 == u))

/-- The per-voter latest-direction table left after a sequence of votes:
one entry per distinct voter, carrying that voter's most recent
direction. -/
def runVotes (votes : List (Nat × Int)) : List (Nat × Int) :=
  votes.foldl (fun acc p => upsert acc p.1 p.2) []

/-! ### Language catalog and `find_language_id` (src/main.py lines 247-317) -/

/-- One entry of the Judge0 `/languages` catalog.  `none` models an absent
(or null) field; the Python code treats empty strings and empty lists as
absent via truthiness checks. -/
structure LangEntry where
  id : Nat
  name : Option String
  language : Option String
  aliases : Option (List String)
deriving DecidableEq

/-- The candidate strings of the first (exact-match) pass, in source
order `("name", "language", "aliases")`, lowercased; falsy values (absent
field, empty string, empty list) contribute nothing
(src/main.py lines 283-291). -/
def candValues (e : LangEntry) : List String :=
  (match e.name with
    | some s => if s = "" then [] else [lowerStr s]
    | none => [])
  ++ (match e.language with
    | some s => if s = "" then [] else [lowerStr s]
    | none => [])
  ++ (match e.aliases with
    | some l => if l.isEmpty then [] else l.map lowerStr
    | none => [])

/-- Does the normalised input exactly match one entry (its id rendered as
a string, or any candidate value)?  (src/main.py lines 292-297). -/
def exactEntryMatch (norm : String) (e : LangEntry) : Bool :=
  lowerStr (natToStr e.id) == norm || (candValues e).any (fun v => norm == v)

/-- First pass of `find_language_id`: the first entry with an exact match
wins (src/main.py lines 281-297). -/
def pass1 (norm : String) (langs : List LangEntry) : Option Nat :=
  (langs.find? (exactEntryMatch norm)).map (·.id)

/-- The haystack of the substring pass:
`" ".join(str(lang.get(k,"")) for k in ("id","name","language")).lower()`
(src/main.py line 300). -/
def entryText (e : LangEntry) : String :=
  lowerStr (natToStr e.id ++ " " ++ e.name.getD "" ++ " " ++ e.language.getD "")

/-- Second pass: first entry whose id/name/language concatenation contains
the input as a substring (src/main.py lines 298-302). -/
def pass2 (norm : String) (langs : List LangEntry) : Option Nat :=
  (langs.find? (fun e => strContains (entryText e) norm)).map (·.id)

/-- `fallback_aliases` (src/main.py lines 304-311). -/
def fallback_aliases : List (String × String) :=
  [("py", "python"), ("python3", "python"), ("js", "javascript"),
   ("node", "javascript"), ("c++", "cpp"), ("c#", "csharp")]

/-- Python `user_lang_norm in fallback_aliases` plus the lookup. -/
def lookupAlias (norm : String) : Option String :=
  (fallback_aliases.find? (fun p => p.1 == norm)).map (·.2)

/-- Third pass: map through the fallback alias table, then substring-match
the mapped name against each entry's name/language fields
(src/main.py lines 312-316). -/
def pass3 (norm : String) (langs : List LangEntry) : Option Nat :=
  match lookupAlias norm with
  | none => none
  | some mapped =>
    (langs.find? (fun e =>
      strContains (lowerStr (e.name.getD "")) mapped
        || strContains (lowerStr (e.language.getD "")) mapped)).map (·.id)

/-- Result of one `find_language_id` call: the resolved id (if any), the
process-wide cache afterwards (`bot._cached_judge0_languages`; `none`
models both "attribute absent" and "attribute is None"), and how many
`/languages` fetches the call performed. -/
structure ResolveOut where
  result : Option Nat
  cache : Option (List LangEntry)
  fetches : Nat
deriving DecidableEq

/-- `find_language_id` (src/main.py lines 258-317).  `fetchResult` is the
outcome of `fetch_judge0_languages` if the call fetches (`none` = the
fetch failed or returned a non-200 status, which the Python helper maps to
`None`).  Note line 278: `bot._cached_judge0_languages = langs or []`, so
a failed fetch caches the empty list. -/
def find_language_id (fetchResult : Option (List LangEntry))
    (cache0 : Option (List LangEntry)) (user_lang : String) : ResolveOut :=
  let norm := lowerStr (trimStr user_lang)
  if norm = "" then ⟨none, cache0, 0⟩
  else if isDigitStr norm then ⟨some (strToNat norm), cache0, 0⟩
  else
    let fetched : Option (List LangEntry) × Nat :=
      match cache0 with
      | none => (some (fetchResult.getD []), 1)
      | some l => (some l, 0)
    let langs := fetched.1.getD []
    let r :=
      match pass1 norm langs with
      | some i => some i
      | none =>
        match pass2 norm langs with
        | some i => some i
        | none => pass3 norm langs
    ⟨r, fetched.1, fetched.2⟩

/-! ### Judge0 client (src/main.py lines 319-335) -/

/-- The dict `submit_to_judge0` returns, as consumed by `submit_code`.
`error = some m` models the key `"error"` being present.  The `status`
object is flattened to its `description`. -/
structure J0Result where
  error : Option String
  stdout : Option String
  stderr : Option String
  compile_output : Option String
  status_desc : Option String
  time : Option String
  memory : Option String
deriving DecidableEq

/-- A transport-level response from the Judge0 `/submissions` endpoint:
HTTP status, raw body text, and the outcome of `json.loads` on the body
(`none` when the body is not well-formed JSON). -/
structure HttpResponse where
  status : Nat
  text : String
  parsed : Option J0Result
deriving DecidableEq

/-- A result dict holding only an `"error"` entry. -/
def errResult (m : String) : J0Result := ⟨some m, none, none, none, none, none, none⟩

/-- `submit_to_judge0` (src/main.py lines 319-335): return the parsed JSON
body, or an error dict when `json.loads` raises. -/
def submit_to_judge0 (resp : HttpResponse) : J0Result :=
  match resp.parsed with
  | some r => r
  | none =>
    errResult ("Judge0 returned non-JSON response (status " ++ natToStr resp.status ++ "): " ++ resp.text)

/-- What happens when `submit_code` awaits `submit_to_judge0`
(src/main.py lines 497-503): a transport-level response arrives, the
request times out (`asyncio.TimeoutError`), or some other exception is
raised. -/
inductive ExecOutcome where
  | response (r : HttpResponse) : ExecOutcome
  | timeout : ExecOutcome
  | raised (msg : String) : ExecOutcome
deriving DecidableEq

/-- The `result` dict bound in `submit_code` after the try/except around
`submit_to_judge0` (src/main.py lines 498-503). -/
def execResult : ExecOutcome → J0Result
  | .response r => submit_to_judge0 r
  | .timeout => errResult "Timeout contacting Judge0"
  | .raised m => errResult m

/-! ### The submission pipeline `submit_code` (src/main.py lines 409-581)

The Discord layer is modelled as an event trace; embed texts are reduced
to the embed title (for replies and DMs) and to the value of the `Status`
field (for review-channel posts), which is what distinguishes the posts.
Package detection (`detect_external_packages`), the `requirements`
parsing, and the highlight image only contribute embed text and are not
part of the trace. -/

/-- One row of the `submissions` table, carrying its final field values
at the end of the `submit_code` run. -/
structure SubRecord where
  guild_id : Nat
  user_id : Nat
  language : String
  code : String
  requirements : Option String
  status : String
  ai_summary : Option String
  run_stdout : Option String
  run_stderr : Option String
deriving DecidableEq

/-- Observable side effects of one `submit_code` run. -/
inductive Event where
  | ephemeralReply (title : String) : Event
  | dmUser (title : String) : Event
  | execCall (langId : Nat) (code : String) : Event
  | channelPost (statusField : String) : Event
deriving DecidableEq

/-- Is the event a call to the Judge0 execution endpoint? -/
def Event.isExecCall : Event → Bool
  | .execCall _ _ => true
  | _ => false

/-- Number of execution calls issued during a run. -/
def execCallCount (evs : List Event) : Nat := (evs.filter Event.isExecCall).length

/-- Environment of one `submit_code` invocation: interaction context,
configuration, and the outcomes of the external calls the run would
perform. -/
structure Env where
  inGuild : Bool
  guild_id : Nat
  user_id : Nat
  formChannel : Option Nat
  channelFound : Bool
  maxCodeLength : Nat
  catalogFetch : Option (List LangEntry)
  execOutcome : ExecOutcome

/-- Result of one `submit_code` run: the submission row (with its final
fields), or `none` when no row was ever created, plus the event trace. -/
structure Outcome where
  record : Option SubRecord
  events : List Event
deriving DecidableEq

/-- The `ai_summary` persisted before the risk gate
(src/main.py lines 434-437). -/
def mkAiSummary (code : String) (reasons : List String) : String :=
  let base := "Automatic summary:\n" ++ joinSep "\n" ((splitlines code).take 10)
  if reasons.isEmpty then base
  else base ++ "\n\nPotential risks:\n- " ++ joinSep "\n- " reasons

/-- The `ai_analysis` persisted on completion (src/main.py lines 546-552);
missing fields print as Python `None`. -/
def mkAiAnalysis (status_desc time memory : Option String)
    (stdout stderr compile_out : String) : String :=
  "Execution analysis:\nStatus: " ++ status_desc.getD "None"
    ++ "\nTime: " ++ time.getD "None" ++ "\nMemory: " ++ memory.getD "None"
    ++ "\n\nStdout (short):\n```\n" ++ strTake stdout 800 ++ "\n```\n"
    ++ "Stderr (short):\n```\n" ++ strTake stderr 800 ++ "\n```\n"
    ++ "Compile output (short):\n```\n" ++ strTake compile_out 800 ++ "\n```\n"

/-- `submit_code` (src/main.py lines 409-581), from the guard clauses
through risk scoring, language resolution, execution and publication.
`cache0` is the resolver cache (`bot._cached_judge0_languages`) at entry.
Python truthiness of `form_channel_id` is `formChannel.getD 0 ≠ 0`. -/
def submit_code (env : Env) (language code : String) (requirements : Option String)
    (cache0 : Option (List LangEntry)) : Outcome :=
  if !env.inGuild then ⟨none, [.ephemeralReply "Error"]⟩
  else if env.formChannel.getD 0 == 0 then ⟨none, [.ephemeralReply "Form Channel Not Set"]⟩
  else if code.length > env.maxCodeLength then ⟨none, [.ephemeralReply "Code Too Long"]⟩
  else
    let assessed := static_risk_check code
    let ai_summary := mkAiSummary code assessed.2
    let rec0 : SubRecord :=
      ⟨env.guild_id, env.user_id, language, code, requirements, "reviewing",
        some ai_summary, none, none⟩
    if assessed.1 ≥ 50 then
      ⟨some { rec0 with status := "rejected" },
        [.ephemeralReply "Submission Rejected", .dmUser "Submission Rejected"]⟩
    else
      let res := find_language_id env.catalogFetch cache0 language
      match res.result with
      | none =>
        ⟨some { rec0 with status := "lang_not_found" }, [.ephemeralReply "Language Not Found"]⟩
      | some lang_id =>
        let result := execResult env.execOutcome
        let evs0 : List Event := [.ephemeralReply "Execution Preview", .execCall lang_id code]
        match result.error with
        | some emsg =>
          ⟨some { rec0 with status := "exec_failed", run_stderr := some emsg },
            evs0 ++ [.ephemeralReply "Execution Failed"]
              ++ (if env.channelFound then [.channelPost "Execution failed"] else [])⟩
        | none =>
          let stdout := result.stdout.getD ""
          let stderr := result.stderr.getD ""
          let compile_out := result.compile_output.getD ""
          let ai_analysis := mkAiAnalysis result.status_desc result.time result.memory
            stdout stderr compile_out
          let recC : SubRecord :=
            { rec0 with
                status := "completed", ai_summary := some ai_analysis,
                run_stdout := some stdout, run_stderr := some stderr }
          if !env.channelFound then ⟨some recC, evs0 ++ [.ephemeralReply "Error"]⟩
          else
            ⟨some recC,
              evs0 ++ [.channelPost "Executed & Reviewed", .ephemeralReply "Submission Posted"]⟩

/-- Concrete environment for pipeline witnesses: inside a guild, configured
and resolvable form channel, default max length, no catalog available, and
an execution request that times out. -/
def envTimeout : Env := ⟨true, 1, 2, some 5, true, 8000, none, .timeout⟩

/-- Concrete environment whose execution backend answers with a
non-JSON body. -/
def envMalformed : Env :=
  ⟨true, 1, 2, some 5, true, 8000, none, .response ⟨502, "<html>bad gateway</html>", none⟩⟩

/-! ## Theorems about the claims -/

/-- C4: for every code input, `static_risk_check` returns a score in
[0,100] (the score is a natural number, so 0 is a lower bound by type) and
is deterministic (equal inputs yield the same score and the same ordered
reason list); for the empty input it returns score 0 and no reasons. -/
theorem risk_score_bounded_and_deterministic (c₁ c₂ : String) (h : c₁ = c₂) :
    (static_risk_check c₁).1 ≤ 100 ∧ static_risk_check c₁ = static_risk_check c₂ ∧
      static_risk_check "" = (0, []) := by
  subst h
  refine ⟨?_, rfl, by decide⟩
  unfold static_risk_check
  exact Nat.min_le_left _ _

/-- Witness for C4 at the concrete input `"print(42)"`. -/
theorem risk_score_bounded_and_deterministic_witness :
    "print(42)" = "print(42)" ∧
      ((static_risk_check "print(42)").1 ≤ 100 ∧
        static_risk_check "print(42)" = static_risk_check "print(42)" ∧
        static_risk_check "" = (0, [])) :=
  ⟨rfl, risk_score_bounded_and_deterministic "print(42)" "print(42)" rfl⟩

/-- C9: a user-supplied language string that is purely numeric after
normalisation resolves directly to that number as the backend language id,
with no catalog fetch (`fetches = 0`), no change to the cache, and no
consultation or validation against the catalog (the result is the same
for every possible fetch outcome and cache contents). -/
theorem numeric_language_resolves_directly (fetch cache : Option (List LangEntry))
    (user_lang : String) (h : isDigitStr (lowerStr (trimStr user_lang)) = true) :
    find_language_id fetch cache user_lang =
      ⟨some (strToNat (lowerStr (trimStr user_lang))), cache, 0⟩ := by
  have hne : ¬ lowerStr (trimStr user_lang) = "" := by
    intro he
    rw [he] at h
    exact absurd h (by decide)
  unfold find_language_id
  simp [hne, h]

/-- Witness for C9 at the concrete input `"71"`. -/
theorem numeric_language_resolves_directly_witness :
    isDigitStr (lowerStr (trimStr "71")) = true ∧
      find_language_id none none "71" = ⟨some 71, none, 0⟩ :=
  ⟨by decide, numeric_language_resolves_directly none none "71" (by decide)⟩

/-- C10: a user-supplied language string that is empty or all whitespace
(its stripped form is empty) makes the resolver return `none` immediately:
no catalog fetch, no cache change, no match attempted. -/
theorem blank_language_unresolved (fetch cache : Option (List LangEntry))
    (user_lang : String) (h : trimStr user_lang = "") :
    find_language_id fetch cache user_lang = ⟨none, cache, 0⟩ := by
  have hn : lowerStr (trimStr user_lang) = "" := by rw [h]; rfl
  unfold find_language_id
  simp [hn]

/-- Witness for C10 at the concrete whitespace-only input `"  "`. -/
theorem blank_language_unresolved_witness :
    trimStr "  " = "" ∧ find_language_id none none "  " = ⟨none, none, 0⟩ :=
  ⟨by decide, blank_language_unresolved none none "  " (by decide)⟩

/-- C2 counterexample: with an empty cache and a failing catalog fetch,
resolving `"python"` caches the empty list (`some []`, not nothing), and
the next resolve call performs zero fetches even though the backend now
answers with a catalog containing Python — the fetch is not retried and
the input stays unresolved. -/
theorem failed_fetch_not_retried_counterexample :
    (find_language_id none none "python").cache = some [] ∧
      (find_language_id (some [⟨71, some "Python (3.8.1)", some "python", none⟩])
        (find_language_id none none "python").cache "python").fetches = 0 ∧
      (find_language_id (some [⟨71, some "Python (3.8.1)", some "python", none⟩])
        (find_language_id none none "python").cache "python").result = none := by
  decide

/-- C2 amended: when the language-catalog fetch fails, the resolver caches
the empty list (so the fetch is NOT retried on the next resolve call: any
later call finds a populated cache and performs zero fetches); the failed
fetch causes that resolution to return `none` (Unresolved) rather than a
silently accepted id. -/
theorem failed_fetch_caches_empty_list (user_lang : String)
    (fetch2 : Option (List LangEntry))
    (hne : ¬ lowerStr (trimStr user_lang) = "")
    (hnd : isDigitStr (lowerStr (trimStr user_lang)) = false) :
    find_language_id none none user_lang = ⟨none, some [], 1⟩ ∧
      (find_language_id fetch2 (some []) user_lang).fetches = 0 := by
  constructor
  · unfold find_language_id
    simp [hne, hnd, pass1, pass2, pass3]
    cases lookupAlias (lowerStr (trimStr user_lang)) <;> simp
  · unfold find_language_id
    simp [hne, hnd]

/-- Witness for C2's amended statement at the concrete input `"python"`. -/
theorem failed_fetch_caches_empty_list_witness :
    (¬ lowerStr (trimStr "python") = "") ∧
      isDigitStr (lowerStr (trimStr "python")) = false ∧
      (find_language_id none none "python" = ⟨none, some [], 1⟩ ∧
        (find_language_id (some [⟨71, some "Python (3.8.1)", some "python", none⟩])
          (some []) "python").fetches = 0) :=
  ⟨by decide, by decide,
    failed_fetch_caches_empty_list "python"
      (some [⟨71, some "Python (3.8.1)", some "python", none⟩]) (by decide) (by decide)⟩

/-- C6: language resolution is case-insensitive (the input is lowercased
and matched against lowercased catalog values) and an exact match against
any entry's id, name, or alias takes priority over any substring match:
whenever some catalog entry matches the normalised input exactly, the
resolver returns the first such entry's id, regardless of which entries
would match by substring. -/
theorem exact_match_takes_priority (fetch : Option (List LangEntry))
    (langs : List LangEntry) (user_lang : String) (e : LangEntry)
    (hne : ¬ lowerStr (trimStr user_lang) = "")
    (hnd : isDigitStr (lowerStr (trimStr user_lang)) = false)
    (hfind : langs.find? (exactEntryMatch (lowerStr (trimStr user_lang))) = some e) :
    (find_language_id fetch (some langs) user_lang).result = some e.id := by
  unfold find_language_id
  simp [hne, hnd, pass1, hfind]

/-- Witness for C6: the claim's scenario — catalog entries
id 1/"Python (3.10)" and id 2/"Py", input `"py"` resolves to id 2, not
id 1. -/
theorem exact_match_takes_priority_witness :
    (¬ lowerStr (trimStr "py") = "") ∧
      isDigitStr (lowerStr (trimStr "py")) = false ∧
      [(⟨1, some "Python (3.10)", none, none⟩ : LangEntry), ⟨2, some "Py", none, none⟩].find?
        (exactEntryMatch (lowerStr (trimStr "py"))) = some ⟨2, some "Py", none, none⟩ ∧
      (find_language_id none
        (some [⟨1, some "Python (3.10)", none, none⟩, ⟨2, some "Py", none, none⟩])
        "py").result = some 2 :=
  ⟨by decide, by decide, by decide,
    exact_match_takes_priority none
      [⟨1, some "Python (3.10)", none, none⟩, ⟨2, some "Py", none, none⟩]
      "py" ⟨2, some "Py", none, none⟩ (by decide) (by decide) (by decide)⟩

/-- C1: every submission that passes the intake guards and whose risk
score reaches the inclusive threshold 50 ends with status `"rejected"`,
and the run issues no execution call to the backend. -/
theorem high_risk_rejected_without_execution (env : Env) (language code : String)
    (requirements : Option String) (cache0 : Option (List LangEntry))
    (hg : env.inGuild = true) (hc : ¬ env.formChannel.getD 0 = 0)
    (hlen : code.length ≤ env.maxCodeLength)
    (hrisk : 50 ≤ (static_risk_check code).1) :
    (submit_code env language code requirements cache0).record.map (·.status) =
        some "rejected" ∧
      execCallCount (submit_code env language code requirements cache0).events = 0 := by
  have hlen' : ¬ code.length > env.maxCodeLength := not_lt.mpr hlen
  unfold submit_code
  simp [hg, hc, hlen', hrisk, execCallCount, Event.isExecCall]

/-- Witness for C1: `"eval(exec("` matches two suspicious patterns, scores
60 ≥ 50, is rejected, and no execution call is issued. -/
theorem high_risk_rejected_without_execution_witness :
    envTimeout.inGuild = true ∧ (¬ envTimeout.formChannel.getD 0 = 0) ∧
      "eval(exec(".length ≤ envTimeout.maxCodeLength ∧
      50 ≤ (static_risk_check "eval(exec(").1 ∧
      ((submit_code envTimeout "python" "eval(exec(" none none).record.map (·.status) =
          some "rejected" ∧
        execCallCount (submit_code envTimeout "python" "eval(exec(" none none).events = 0) :=
  ⟨rfl, by decide, by decide, by decide,
    high_risk_rejected_without_execution envTimeout "python" "eval(exec(" none none
      rfl (by decide) (by decide) (by decide)⟩

/-- C5: a submission whose code length exceeds the configured maximum is
rejected before intake: the run produces no submission record at all (the
store is left unchanged) and only the validation-error reply is sent. -/
theorem too_long_rejected_before_intake (env : Env) (language code : String)
    (requirements : Option String) (cache0 : Option (List LangEntry))
    (hg : env.inGuild = true) (hc : ¬ env.formChannel.getD 0 = 0)
    (hlen : code.length > env.maxCodeLength) :
    submit_code env language code requirements cache0 =
      ⟨none, [.ephemeralReply "Code Too Long"]⟩ := by
  unfold submit_code
  simp [hg, hc, hlen]

/-- Witness for C5: the claim's scenario — code of length 9000 against the
configured maximum 8000 creates no submission record. -/
theorem too_long_rejected_before_intake_witness :
    envTimeout.inGuild = true ∧ (¬ envTimeout.formChannel.getD 0 = 0) ∧
      (String.mk (List.replicate 9000 'a')).length > envTimeout.maxCodeLength ∧
      submit_code envTimeout "python" (String.mk (List.replicate 9000 'a')) none none =
        ⟨none, [.ephemeralReply "Code Too Long"]⟩ := by
  have hlen : (String.mk (List.replicate 9000 'a')).length > envTimeout.maxCodeLength := by
    show (List.replicate 9000 'a').length > 8000
    rw [List.length_replicate]
    decide
  exact ⟨rfl, by decide, hlen,
    too_long_rejected_before_intake envTimeout "python" (String.mk (List.replicate 9000 'a'))
      none none rfl (by decide) hlen⟩

/-- C3: when the backend's response body does not parse as JSON, the run
sets status `"exec_failed"` (never `"completed"`), persists the non-JSON
diagnostic as the submission's stderr, and the whole outcome (record and
events) is identical to the outcome of a transport-level failure carrying
the same diagnostic. -/
theorem malformed_response_treated_as_transport_failure (env : Env)
    (language code : String) (requirements : Option String)
    (cache0 : Option (List LangEntry)) (st : Nat) (txt : String) (lid : Nat)
    (hg : env.inGuild = true) (hc : ¬ env.formChannel.getD 0 = 0)
    (hlen : code.length ≤ env.maxCodeLength)
    (hrisk : (static_risk_check code).1 < 50)
    (hres : (find_language_id env.catalogFetch cache0 language).result = some lid)
    (hout : env.execOutcome = .response ⟨st, txt, none⟩) :
    (submit_code env language code requirements cache0).record.map (·.status) =
        some "exec_failed" ∧
      (submit_code env language code requirements cache0).record.bind (·.run_stderr) =
        some ("Judge0 returned non-JSON response (status " ++ natToStr st ++ "): " ++ txt) ∧
      ¬ (submit_code env language code requirements cache0).record.map (·.status) =
        some "completed" ∧
      submit_code env language code requirements cache0 =
        submit_code
          { env with
              execOutcome := .raised
                ("Judge0 returned non-JSON response (status " ++ natToStr st ++ "): " ++ txt) }
          language code requirements cache0 := by
  have hlen' : ¬ code.length > env.maxCodeLength := not_lt.mpr hlen
  have hrisk' : ¬ (static_risk_check code).1 ≥ 50 := not_le.mpr hrisk
  unfold submit_code
  simp only [hg, hc, hlen', hrisk', hres, hout, execResult, submit_to_judge0, errResult,
    Bool.not_true, Bool.false_eq_true, if_false, ite_false, ite_true]
  simp [hg, hc, hlen', hrisk', hres]

/-- Witness for C3: a 502 response with an HTML body is treated the same
as a raised transport error, with the diagnostic persisted as stderr. -/
theorem malformed_response_treated_as_transport_failure_witness :
    envMalformed.inGuild = true ∧ (¬ envMalformed.formChannel.getD 0 = 0) ∧
      "".length ≤ envMalformed.maxCodeLength ∧ (static_risk_check "").1 < 50 ∧
      (find_language_id envMalformed.catalogFetch none "71").result = some 71 ∧
      envMalformed.execOutcome = .response ⟨502, "<html>bad gateway</html>", none⟩ ∧
      ((submit_code envMalformed "71" "" none none).record.map (·.status) =
          some "exec_failed" ∧
        (submit_code envMalformed "71" "" none none).record.bind (·.run_stderr) =
          some ("Judge0 returned non-JSON response (status " ++ natToStr 502 ++ "): "
            ++ "<html>bad gateway</html>") ∧
        ¬ (submit_code envMalformed "71" "" none none).record.map (·.status) =
          some "completed" ∧
        submit_code envMalformed "71" "" none none =
          submit_code
            { envMalformed with
                execOutcome := .raised
                  ("Judge0 returned non-JSON response (status " ++ natToStr 502 ++ "): "
                    ++ "<html>bad gateway</html>") } "71" "" none none) :=
  ⟨rfl, by decide, by decide, by decide, by decide, rfl,
    malformed_response_treated_as_transport_failure envMalformed "71" "" none none
      502 "<html>bad gateway</html>" 71 rfl (by decide) (by decide) (by decide)
      (by decide) rfl⟩

/-- C8: whenever the execution step fails — the `result` dict carries an
`"error"` entry, which covers transport errors, timeouts and malformed
responses — the run persists the failure reason as stderr, sets status
`"exec_failed"`, and (the review channel being resolvable) still posts the
submission to the review channel with the `"Execution failed"` marker. -/
theorem failed_execution_persisted_and_published (env : Env) (language code : String)
    (requirements : Option String) (cache0 : Option (List LangEntry)) (lid : Nat) (m : String)
    (hg : env.inGuild = true) (hc : ¬ env.formChannel.getD 0 = 0)
    (hlen : code.length ≤ env.maxCodeLength)
    (hrisk : (static_risk_check code).1 < 50)
    (hres : (find_language_id env.catalogFetch cache0 language).result = some lid)
    (herr : (execResult env.execOutcome).error = some m)
    (hch : env.channelFound = true) :
    (submit_code env language code requirements cache0).record.map (·.status) =
        some "exec_failed" ∧
      (submit_code env language code requirements cache0).record.bind (·.run_stderr) = some m ∧
      Event.channelPost "Execution failed" ∈
        (submit_code env language code requirements cache0).events := by
  have hlen' : ¬ code.length > env.maxCodeLength := not_lt.mpr hlen
  have hrisk' : ¬ (static_risk_check code).1 ≥ 50 := not_le.mpr hrisk
  unfold submit_code
  simp [hg, hc, hlen', hrisk', hres, herr, hch]

/-- Witness for C8: the claim's scenario — the backend request times out,
the timeout reason lands in stderr, and the submission is still posted to
the review channel marked as a failed execution. -/
theorem failed_execution_persisted_and_published_witness :
    envTimeout.inGuild = true ∧ (¬ envTimeout.formChannel.getD 0 = 0) ∧
      "".length ≤ envTimeout.maxCodeLength ∧ (static_risk_check "").1 < 50 ∧
      (find_language_id envTimeout.catalogFetch none "71").result = some 71 ∧
      (execResult envTimeout.execOutcome).error = some "Timeout contacting Judge0" ∧
      envTimeout.channelFound = true ∧
      ((submit_code envTimeout "71" "" none none).record.map (·.status) =
          some "exec_failed" ∧
        (submit_code envTimeout "71" "" none none).record.bind (·.run_stderr) =
          some "Timeout contacting Judge0" ∧
        Event.channelPost "Execution failed" ∈
          (submit_code envTimeout "71" "" none none).events) :=
  ⟨rfl, by decide, by decide, by decide, by decide, rfl, rfl,
    failed_execution_persisted_and_published envTimeout "71" "" none none 71
      "Timeout contacting Judge0" rfl (by decide) (by decide) (by decide) (by decide)
      rfl rfl⟩

/-! ### Lemmas for the vote-tally claim -/

theorem runVotes_append (vs : List (Nat × Int)) (w : Nat × Int) :
    runVotes (vs ++ [w]) = upsert (runVotes vs) w.1 w.2 := by
  simp [runVotes, List.foldl_append]

theorem filter_set_vote (db : List VoteRow) (s u : Nat) (d : Int) :
    (set_vote db s u d).filter (fun r => r.1 == s) =
      (s, u, d) :: (db.filter (fun r => r.1 == s)).filter (fun r => !(r.2.1 == u)) := by
  unfold set_vote
  rw [List.filter_cons_of_pos (by simp)]
  rw [List.filter_filter, List.filter_filter]
  apply congrArg
  apply List.filter_congr
  intro r _
  cases h1 : (r.1 == s) <;> cases h2 : (r.2.1 == u) <;> simp [h1, h2]

theorem filter_map_votes (s u : Nat) (acc : List (Nat × Int)) :
    (acc.map (fun p => ((s, p.1, p.2) : VoteRow))).filter (fun r => !(r.2.1 == u)) =
      (acc.filter (fun p => !(p.1 == u))).map (fun p => ((s, p.1, p.2) : VoteRow)) := by
  rw [List.filter_map]
  rfl

theorem rows_applyVotes (s : Nat) (votes : List (Nat × Int)) :
    ∀ (db : List VoteRow) (acc : List (Nat × Int)),
      db.filter (fun r => r.1 == s) = acc.map (fun p => ((s, p.1, p.2) : VoteRow)) →
      (applyVotes db s votes).filter (fun r => r.1 == s) =
        (votes.foldl (fun a p => upsert a p.1 p.2) acc).map
          (fun p => ((s, p.1, p.2) : VoteRow)) := by
  induction votes with
  | nil =>
    intro db acc h
    simpa [applyVotes] using h
  | cons v rest ih =>
    intro db acc h
    have hstep : (set_vote db s v.1 v.2).filter (fun r => r.1 == s) =
        (upsert acc v.1 v.2).map (fun p => ((s, p.1, p.2) : VoteRow)) := by
      rw [filter_set_vote, h, filter_map_votes]
      rfl
    have h2 := ih (set_vote db s v.1 v.2) (upsert acc v.1 v.2) hstep
    simpa [applyVotes] using h2

theorem nodup_keys_upsert (acc : List (Nat × Int)) (u : Nat) (d : Int)
    (h : (acc.map (·.1)).Nodup) : ((upsert acc u d).map (·.1)).Nodup := by
  unfold upsert
  simp only [List.map_cons, List.nodup_cons]
  constructor
  · intro hmem
    rcases List.mem_map.mp hmem with ⟨p, hp, hpu⟩
    have hkeep := (List.mem_filter.mp hp).2
    rw [hpu] at hkeep
    simp at hkeep
  · exact h.sublist ((List.filter_sublist acc).map _)

theorem nodup_keys_foldl (votes : List (Nat × Int)) :
    ∀ acc, (acc.map (·.1)).Nodup →
      ((votes.foldl (fun a p => upsert a p.1 p.2) acc).map (·.1)).Nodup := by
  induction votes with
  | nil => intro acc h; simpa using h
  | cons v rest ih =>
    intro acc h
    simpa using ih (upsert acc v.1 v.2) (nodup_keys_upsert acc v.1 v.2 h)

theorem nodup_keys_runVotes (votes : List (Nat × Int)) :
    ((runVotes votes).map (·.1)).Nodup :=
  nodup_keys_foldl votes [] (by simp)

theorem find?_filter_of_imp {α : Type} (p q : α → Bool) (l : List α)
    (h : ∀ x, p x = true → q x = true) : (l.filter q).find? p = l.find? p := by
  induction l with
  | nil => rfl
  | cons a l ih =>
    cases hq : q a with
    | false =>
      have hp : p a = false := by
        cases hpa : p a
        · rfl
        · rw [h a hpa] at hq; exact absurd hq (by simp)
      rw [List.filter_cons_of_neg (by simp [hq])]
      rw [List.find?_cons_of_neg _ (by simp [hp])]
      exact ih
    | true =>
      rw [List.filter_cons_of_pos (by simp [hq])]
      cases hpa : p a
      · rw [List.find?_cons_of_neg _ (by simp [hpa]), List.find?_cons_of_neg _ (by simp [hpa])]
        exact ih
      · rw [List.find?_cons_of_pos _ (by simp [hpa]), List.find?_cons_of_pos _ (by simp [hpa])]

theorem runVotes_find? (votes : List (Nat × Int)) (u : Nat) :
    (runVotes votes).find? (fun p => p.1 == u) =
      votes.reverse.find? (fun p => p.1 == u) := by
  induction votes using List.reverseRecOn with
  | nil => rfl
  | append_singleton vs w ih =>
    rw [runVotes_append, List.reverse_append]
    simp only [List.reverse_singleton, List.singleton_append]
    by_cases hw : w.1 = u
    · unfold upsert
      rw [List.find?_cons_of_pos _ (by simp [hw]),
        List.find?_cons_of_pos vs.reverse (by simp [hw])]
    · unfold upsert
      have himp : ∀ x : Nat × Int, (x.1 == u) = true → (!(x.1 == w.1)) = true := by
        intro x hx
        simp only [beq_iff_eq] at hx
        have hxw : ¬ x.1 = w.1 := by
          rw [hx]
          exact fun he => hw he.symm
        simp [hxw]
      rw [List.find?_cons_of_neg _ (by simp [hw]),
        List.find?_cons_of_neg vs.reverse (by simp [hw]),
        find?_filter_of_imp _ _ _ himp]
      exact ih

theorem mem_keys_runVotes (votes : List (Nat × Int)) (u : Nat) :
    u ∈ (runVotes votes).map (·.1) ↔ u ∈ votes.map (·.1) := by
  have key : ∀ l : List (Nat × Int),
      (u ∈ l.map (·.1)) ↔ ((l.find? (fun p => p.1 == u)).isSome = true) := by
    intro l
    simp only [List.find?_isSome, List.mem_map, beq_iff_eq]
  rw [key, key, runVotes_find?]
  simp only [List.find?_isSome, List.mem_reverse]

theorem length_filter_erase_key (acc : List (Nat × Int)) (u : Nat)
    (hnd : (acc.map (·.1)).Nodup) (hmem : u ∈ acc.map (·.1)) :
    (acc.filter (fun p => !(p.1 == u))).length + 1 = acc.length := by
  induction acc with
  | nil => simp at hmem
  | cons a l ih =>
    rw [List.map_cons, List.nodup_cons] at hnd
    rw [List.map_cons, List.mem_cons] at hmem
    by_cases ha : a.1 = u
    · rw [List.filter_cons_of_neg (by simp [ha])]
      have hkeep : ∀ p ∈ l, (!(p.1 == u)) = true := by
        intro p hp
        have hne : ¬ p.1 = u := by
          intro he
          exact hnd.1 (List.mem_map.mpr ⟨p, hp, by rw [he, ha]⟩)
        simp [hne]
      rw [List.filter_eq_self.mpr hkeep]
      simp
    · have hmem' : u ∈ l.map (·.1) := by
        rcases hmem with h | h
        · exact absurd h.symm ha
        · exact h
      rw [List.filter_cons_of_pos (by simp [ha])]
      have := ih hnd.2 hmem'
      simp only [List.length_cons]
      omega

/-- C7: votes on one submission are last-write-wins per voter.  Starting
from a store with no votes for submission `s`, after any sequence of
votes: the tally's score is the sum and its count the length of the
per-voter table `runVotes votes`, whose keys are exactly the distinct
voters (without duplicates) and whose entry for each voter is that
voter's most recent vote; and a re-vote by an existing voter leaves the
count unchanged. -/
theorem vote_tally_last_write_wins (s : Nat) (votes : List (Nat × Int)) (db : List VoteRow)
    (hdb : db.filter (fun r => r.1 == s) = []) :
    get_votes (applyVotes db s votes) s =
        (((runVotes votes).map (·.2)).sum, (runVotes votes).length) ∧
      ((runVotes votes).map (·.1)).Nodup ∧
      (∀ u, u ∈ (runVotes votes).map (·.1) ↔ u ∈ votes.map (·.1)) ∧
      (∀ u, (runVotes votes).find? (fun p => p.1 == u) =
          votes.reverse.find? (fun p => p.1 == u)) ∧
      (∀ u d, u ∈ votes.map (·.1) →
        (get_votes (applyVotes db s (votes ++ [(u, d)])) s).2 =
          (get_votes (applyVotes db s votes) s).2) := by
  have hrows : ∀ vs : List (Nat × Int),
      (applyVotes db s vs).filter (fun r => r.1 == s) =
        (runVotes vs).map (fun p => ((s, p.1, p.2) : VoteRow)) := by
    intro vs
    exact rows_applyVotes s vs db [] (by simpa using hdb)
  have hget : ∀ vs, get_votes (applyVotes db s vs) s =
      (((runVotes vs).map (·.2)).sum, (runVotes vs).length) := by
    intro vs
    simp only [get_votes]
    rw [hrows vs]
    simp only [List.map_map, List.length_map]
    rfl
  refine ⟨hget votes, nodup_keys_runVotes votes, mem_keys_runVotes votes,
    runVotes_find? votes, ?_⟩
  intro u d hu
  rw [hget, hget]
  show (runVotes (votes ++ [(u, d)])).length = (runVotes votes).length
  rw [runVotes_append]
  unfold upsert
  rw [List.length_cons]
  exact length_filter_erase_key (runVotes votes) u (nodup_keys_runVotes votes)
    ((mem_keys_runVotes votes u).mpr hu)

/-- Witness for C7: submission 1 starts with no votes (the store holds one
vote on submission 2); voters 10 and 11 upvote, then voter 10 changes to a
downvote: score 0, count 2. -/
theorem vote_tally_last_write_wins_witness :
    ([((2 : Nat), (10 : Nat), (1 : Int))].filter (fun r => r.1 == 1) = []) ∧
      (get_votes (applyVotes [(2, 10, 1)] 1 [(10, 1), (11, 1), (10, -1)]) 1 =
          (((runVotes [(10, 1), (11, 1), (10, -1)]).map (·.2)).sum,
            (runVotes [(10, 1), (11, 1), (10, -1)]).length) ∧
        ((runVotes [(10, 1), (11, 1), (10, -1)]).map (·.1)).Nodup ∧
        (∀ u, u ∈ (runVotes [(10, 1), (11, 1), (10, -1)]).map (·.1) ↔
          u ∈ [(10, 1), (11, 1), (10, -1)].map (·.1)) ∧
        (∀ u, (runVotes [(10, 1), (11, 1), (10, -1)]).find? (fun p => p.1 == u) =
          [(10, 1), (11, 1), (10, -1)].reverse.find? (fun p => p.1 == u)) ∧
        (∀ u d, u ∈ [(10, 1), (11, 1), (10, -1)].map (·.1) →
          (get_votes (applyVotes [(2, 10, 1)] 1 ([(10, 1), (11, 1), (10, -1)] ++ [(u, d)])) 1).2 =
            (get_votes (applyVotes [(2, 10, 1)] 1 [(10, 1), (11, 1), (10, -1)]) 1).2)) :=
  ⟨by decide, vote_tally_last_write_wins 1 [(10, 1), (11, 1), (10, -1)] [(2, 10, 1)] (by decide)⟩

end Codebot

